import Mathlib

/-!
Shallow embedding of the air-quality canister (src/src/backend/src/lib.rs).

Modelling conventions:
* u64 and u32 are modelled as Nat (the counter increment cannot overflow in
  any feasible execution, so no modular wrap is modelled).
* f64 weather metrics and pollutant concentrations are modelled as Rat; the
  code only stores them and compares them with >= and <=.
* The StableBTreeMap storage is an association list sorted by ascending key,
  with insert/remove/get/iter modelled by insertSorted, removeKey,
  assocLookup and the list itself (iteration order is list order).
* The id counter Cell is a Nat field of the state.  Cell.set returns the
  PREVIOUS value (Ok(mem::replace(..)) in ic-stable-structures), so the
  expression of lines 117-122 evaluates to the pre-increment counter value.
* The host clock time() is passed as an explicit Nat argument to the
  mutating operations.
* Result<T, Error> is modelled as Except Error T; mutating operations
  return the new state paired with the result.
-/

namespace AirQuality

/-- Weather metrics carried by a record (struct WeatherData, all f64). -/
structure WeatherData where
  temperature : Rat
  humidity : Rat
  wind_speed : Rat
  deriving DecidableEq

/-- Rust derive(Default) for WeatherData: every f64 field is 0.0. -/
def WeatherData.default0 : WeatherData := ⟨0, 0, 0⟩

/-- The stored record (struct AirQualityData). -/
structure AirQualityData where
  id : Nat
  location : String
  timestamp : Nat
  air_quality_index : Nat
  health_recommendations : String
  pollutant_levels : List (String × Rat)
  weather_conditions : WeatherData
  deriving DecidableEq

/-- Payload of create and update (struct AirQualityUpdatePayload). -/
structure AirQualityUpdatePayload where
  location : String
  air_quality_index : Nat
  health_recommendations : String
  pollutant_levels : Option (List (String × Rat))
  weather_conditions : Option WeatherData
  deriving DecidableEq

/-- Caller-visible errors (enum Error). -/
inductive Error where
  | NotFound (msg : String)
  | InvalidInput (msg : String)
  deriving DecidableEq

/-- Lookup in an association list, first matching key (models both
HashMap::get for pollutant maps and StableBTreeMap::get for storage). -/
def assocLookup {κ α : Type} [DecidableEq κ] : List (κ × α) → κ → Option α
  | [], _ => none
  | (k, v) :: rest, k₀ => if k₀ = k then some v else assocLookup rest k₀

/-- Insert-or-overwrite keeping the list sorted by key
(StableBTreeMap::insert). -/
def insertSorted {α : Type} (k : Nat) (v : α) : List (Nat × α) → List (Nat × α)
  | [] => [(k, v)]
  | (k₁, v₁) :: rest =>
    if k < k₁ then (k, v) :: (k₁, v₁) :: rest
    else if k = k₁ then (k, v) :: rest
    else (k₁, v₁) :: insertSorted k v rest

/-- Remove a key, returning the prior value (StableBTreeMap::remove). -/
def removeKey {α : Type} (k : Nat) : List (Nat × α) → Option α × List (Nat × α)
  | [] => (none, [])
  | (k₁, v₁) :: rest =>
    if k = k₁ then (some v₁, rest)
    else
      let r := removeKey k rest
      (r.1, (k₁, v₁) :: r.2)

/-- Whole canister state: the AIR_QUALITY_ID_COUNTER cell and the
AIR_QUALITY_STORAGE map. -/
structure CanisterState where
  counter : Nat
  storage : List (Nat × AirQualityData)
  deriving DecidableEq

/-- Fresh state: counter initialized to 0, empty storage. -/
def initState : CanisterState := ⟨0, []⟩

/-- Helper do_insert_air_quality: insert keyed by the record's id field. -/
def do_insert_air_quality (st : List (Nat × AirQualityData))
    (data : AirQualityData) : List (Nat × AirQualityData) :=
  insertSorted data.id data st

/-- Helper _get_air_quality_data: point lookup in storage. -/
def _get_air_quality_data (s : CanisterState) (id : Nat) : Option AirQualityData :=
  assocLookup s.storage id

/-- Query get_air_quality_data: lookup or NotFound. -/
def get_air_quality_data (s : CanisterState) (id : Nat) :
    Except Error AirQualityData :=
  match _get_air_quality_data s id with
  | some data => .ok data
  | none => .error (.NotFound
      ("air quality data with id=" ++ toString id ++ " not found"))

/-- Update call add_air_quality_data: validate, allocate id (the counter
cell's set returns the previous value, hence the pre-increment value is the
new id and the cell now holds old+1), default absent optional fields, stamp
time t, insert. -/
def add_air_quality_data (s : CanisterState) (t : Nat)
    (data : AirQualityUpdatePayload) :
    CanisterState × Except Error AirQualityData :=
  if data.location = "" ∨ data.health_recommendations = "" then
    (s, .error (.InvalidInput
      "Location and health recommendations must be provided and non-empty"))
  else
    let id := s.counter
    let air : AirQualityData :=
      { id := id
        location := data.location
        timestamp := t
        air_quality_index := data.air_quality_index
        health_recommendations := data.health_recommendations
        pollutant_levels := data.pollutant_levels.getD []
        weather_conditions := data.weather_conditions.getD WeatherData.default0 }
    ({ counter := s.counter + 1
       storage := do_insert_air_quality s.storage air }, .ok air)

/-- Update call update_air_quality_data: validate, locate, overwrite every
mutable field, refresh timestamp to t, insert back (at key data.id). -/
def update_air_quality_data (s : CanisterState) (id : Nat) (t : Nat)
    (payload : AirQualityUpdatePayload) :
    CanisterState × Except Error AirQualityData :=
  if payload.location = "" ∨ payload.health_recommendations = "" then
    (s, .error (.InvalidInput
      "Location and health recommendations must be provided and non-empty"))
  else
    match assocLookup s.storage id with
    | some data =>
      let data' : AirQualityData :=
        { data with
          location := payload.location
          air_quality_index := payload.air_quality_index
          health_recommendations := payload.health_recommendations
          pollutant_levels := payload.pollutant_levels.getD []
          weather_conditions := payload.weather_conditions.getD WeatherData.default0
          timestamp := t }
      ({ s with storage := do_insert_air_quality s.storage data' }, .ok data')
    | none =>
      (s, .error (.NotFound
        ("couldn't update air quality data with id=" ++ toString id
          ++ ". data not found")))

/-- Update call delete_air_quality_data: remove or NotFound. -/
def delete_air_quality_data (s : CanisterState) (id : Nat) :
    CanisterState × Except Error AirQualityData :=
  match removeKey id s.storage with
  | (some data, st) => ({ s with storage := st }, .ok data)
  | (none, st) => ({ s with storage := st }, .error (.NotFound
      ("couldn't delete air quality data with id=" ++ toString id
        ++ ". data not found.")))

/-- Query get_all_air_quality_data: full scan, every record. -/
def get_all_air_quality_data (s : CanisterState) :
    Except Error (List AirQualityData) :=
  .ok (s.storage.map (·.2))

/-- Substring containment on char lists: some suffix has the pattern as a
prefix (models Rust str::contains). -/
def listContainsSub (pat : List Char) : List Char → Bool
  | [] => pat.isEmpty
  | c :: t => pat.isPrefixOf (c :: t) || listContainsSub pat t

/-- Case-sensitive substring containment on strings. -/
def strContains (hay pat : String) : Bool :=
  listContainsSub pat.data hay.data

/-- Query search_air_quality_data_by_location: scan, keep records whose
location contains the needle. -/
def search_air_quality_data_by_location (s : CanisterState)
    (location : String) : Except Error (List AirQualityData) :=
  .ok (s.storage.filterMap fun p =>
    if strContains p.2.location location then some p.2 else none)

/-- Query get_air_quality_data_by_weather_conditions: scan, keep records
whose three weather metrics all lie in their inclusive ranges. -/
def get_air_quality_data_by_weather_conditions (s : CanisterState)
    (min_temperature max_temperature min_humidity max_humidity
      min_wind_speed max_wind_speed : Rat) :
    Except Error (List AirQualityData) :=
  .ok (s.storage.filterMap fun p =>
    if min_temperature ≤ p.2.weather_conditions.temperature
        ∧ p.2.weather_conditions.temperature ≤ max_temperature
        ∧ min_humidity ≤ p.2.weather_conditions.humidity
        ∧ p.2.weather_conditions.humidity ≤ max_humidity
        ∧ min_wind_speed ≤ p.2.weather_conditions.wind_speed
        ∧ p.2.weather_conditions.wind_speed ≤ max_wind_speed
    then some p.2 else none)

/-- Query get_air_quality_data_by_pollutant_level: scan, keep records whose
pollutant map has the named pollutant in the inclusive range. -/
def get_air_quality_data_by_pollutant_level (s : CanisterState)
    (pollutant : String) (min_level max_level : Rat) :
    Except Error (List AirQualityData) :=
  .ok (s.storage.filterMap fun p =>
    match assocLookup p.2.pollutant_levels pollutant with
    | some level =>
      if min_level ≤ level ∧ level ≤ max_level then some p.2 else none
    | none => none)

/-- Query get_air_quality_data_by_timestamp_range: scan, keep records whose
timestamp lies in the inclusive range. -/
def get_air_quality_data_by_timestamp_range (s : CanisterState)
    (start_timestamp end_timestamp : Nat) :
    Except Error (List AirQualityData) :=
  .ok (s.storage.filterMap fun p =>
    if start_timestamp ≤ p.2.timestamp ∧ p.2.timestamp ≤ end_timestamp
    then some p.2 else none)

/-- Records in scan (ascending key) order. -/
def scanRecords (s : CanisterState) : List AirQualityData :=
  s.storage.map (·.2)

/-- Boolean success test for a call result. -/
def isOkE {α : Type} : Except Error α → Bool
  | .ok _ => true
  | .error _ => false

/-!
Record codec.  Modelled from the spec (section 4.2 Record Codec): the
Candid Encode! and Decode! macros used by the Storable impl are external
library code, so the codec itself is not in this repository; the spec asks
for a self-describing binary form from which decode reconstructs an equal
record.  Bytes are abstract Nat tokens.
-/

/-- Injective fold of an integer into one abstract byte. -/
def encodeInt (i : Int) : Nat :=
  if 0 ≤ i then 2 * i.toNat else 2 * (-i).toNat + 1

/-- Inverse of encodeInt. -/
def decodeInt (n : Nat) : Int :=
  if n % 2 = 0 then ((n / 2 : Nat) : Int) else -(((n - 1) / 2 : Nat) : Int)

/-- Length-prefixed encoding of a string, one byte per character. -/
def encodeString (s : String) : List Nat :=
  s.length :: s.data.map Char.toNat

/-- Encoding of a rational: folded numerator then denominator. -/
def encodeRat (q : Rat) : List Nat :=
  [encodeInt q.num, q.den]

/-- Entries of a pollutant map, each a key string then a value. -/
def encodePollEntries : List (String × Rat) → List Nat
  | [] => []
  | p :: rest => encodeString p.1 ++ encodeRat p.2 ++ encodePollEntries rest

/-- Length-prefixed encoding of a pollutant map. -/
def encodePoll (l : List (String × Rat)) : List Nat :=
  l.length :: encodePollEntries l

/-- Encoding of the three weather metrics. -/
def encodeWeather (w : WeatherData) : List Nat :=
  encodeRat w.temperature ++ encodeRat w.humidity ++ encodeRat w.wind_speed

/-- Modelled from the spec: encode(record) -> bytes, a self-describing
binary form sufficient to reconstruct an equal record (the Storable
to_bytes of the source delegates to the external Candid library). -/
def to_bytes (r : AirQualityData) : List Nat :=
  r.id :: (encodeString r.location ++ r.timestamp :: r.air_quality_index ::
    (encodeString r.health_recommendations ++ encodePoll r.pollutant_levels ++
      encodeWeather r.weather_conditions))

/-- Read one byte. -/
def readNat : List Nat → Option (Nat × List Nat)
  | [] => none
  | n :: rest => some (n, rest)

/-- Read a counted run of characters. -/
def readChars : Nat → List Nat → Option (List Char × List Nat)
  | 0, bs => some ([], bs)
  | _ + 1, [] => none
  | n + 1, b :: bs =>
    match readChars n bs with
    | some (cs, rest) => some (Char.ofNat b :: cs, rest)
    | none => none

/-- Read a length-prefixed string. -/
def readString (bs : List Nat) : Option (String × List Nat) :=
  match readNat bs with
  | some (n, bs₁) =>
    match readChars n bs₁ with
    | some (cs, bs₂) => some (String.mk cs, bs₂)
    | none => none
  | none => none

/-- Read a rational. -/
def readRat : List Nat → Option (Rat × List Nat)
  | a :: b :: rest => some (mkRat (decodeInt a) b, rest)
  | _ => none

/-- Read a counted run of pollutant entries. -/
def readPollEntries : Nat → List Nat → Option (List (String × Rat) × List Nat)
  | 0, bs => some ([], bs)
  | n + 1, bs =>
    match readString bs with
    | some (k, bs₁) =>
      match readRat bs₁ with
      | some (v, bs₂) =>
        match readPollEntries n bs₂ with
        | some (l, bs₃) => some ((k, v) :: l, bs₃)
        | none => none
      | none => none
    | none => none

/-- Read a length-prefixed pollutant map. -/
def readPoll (bs : List Nat) : Option (List (String × Rat) × List Nat) :=
  match readNat bs with
  | some (n, bs₁) => readPollEntries n bs₁
  | none => none

/-- Read the three weather metrics. -/
def readWeather (bs : List Nat) : Option (WeatherData × List Nat) :=
  match readRat bs with
  | some (tp, bs₁) =>
    match readRat bs₁ with
    | some (hm, bs₂) =>
      match readRat bs₂ with
      | some (ws, bs₃) => some (⟨tp, hm, ws⟩, bs₃)
      | none => none
    | none => none
  | none => none

/-- Modelled from the spec: decode(bytes) -> record, the inverse of encode
(the Storable from_bytes of the source delegates to the external Candid
library); returns none on bytes that are not a valid prior encoding. -/
def from_bytes (bs : List Nat) : Option AirQualityData :=
  match readNat bs with
  | some (id, bs₁) =>
    match readString bs₁ with
    | some (loc, bs₂) =>
      match readNat bs₂ with
      | some (ts, bs₃) =>
        match readNat bs₃ with
        | some (aqi, bs₄) =>
          match readString bs₄ with
          | some (hr, bs₅) =>
            match readPoll bs₅ with
            | some (pl, bs₆) =>
              match readWeather bs₆ with
              | some (w, _) => some ⟨id, loc, ts, aqi, hr, pl, w⟩
              | none => none
            | none => none
          | none => none
        | none => none
      | none => none
    | none => none
  | none => none

/-!
Operation traces, for the identifier-allocation invariants.
-/

/-- Externally invoked mutating or reading operations, with the host time
argument attached to the mutating ones. -/
inductive Op where
  | addOp (t : Nat) (p : AirQualityUpdatePayload)
  | updateOp (id : Nat) (t : Nat) (p : AirQualityUpdatePayload)
  | deleteOp (id : Nat)
  | getOp (id : Nat)

/-- State after one operation. -/
def stepOp (s : CanisterState) : Op → CanisterState
  | .addOp t p => (add_air_quality_data s t p).1
  | .updateOp id t p => (update_air_quality_data s id t p).1
  | .deleteOp id => (delete_air_quality_data s id).1
  | .getOp _ => s

/-- State after a whole trace. -/
def runState (s : CanisterState) : List Op → CanisterState
  | [] => s
  | op :: ops => runState (stepOp s op) ops

/-- Identifiers returned by the successful creates of a trace, in call
order. -/
def createdIds (s : CanisterState) : List Op → List Nat
  | [] => []
  | .addOp t p :: ops =>
    match (add_air_quality_data s t p).2 with
    | .ok r => r.id :: createdIds (add_air_quality_data s t p).1 ops
    | .error _ => createdIds (add_air_quality_data s t p).1 ops
  | op :: ops => createdIds (stepOp s op) ops

/-- Representation invariant tying stored keys to record ids and to the
counter: every stored entry is keyed by its record's id and every key was
allocated strictly below the current counter. -/
def KeysBelow (s : CanisterState) : Prop :=
  ∀ p ∈ s.storage, p.2.id = p.1 ∧ p.1 < s.counter

/-- Store well-formedness, the representation invariant of the ordered map:
keys strictly ascend in list order and each entry is keyed by its record's
id field. -/
def StoreWF (s : CanisterState) : Prop :=
  s.storage.Pairwise (fun a b => a.1 < b.1) ∧ ∀ p ∈ s.storage, p.2.id = p.1

/-!
Concrete inputs used by the closed instance theorems.
-/

/-- Concrete payload of the create scenario of the spec: Paris, index 42,
one pollutant reading and mild weather. -/
def demoPayload : AirQualityUpdatePayload :=
  { location := "Paris"
    air_quality_index := 42
    health_recommendations := "stay indoors"
    pollutant_levels := some [("PM2.5", 35)]
    weather_conditions := some ⟨18, 60, 5⟩ }

/-- Concrete stored record used to exercise the codec and the queries. -/
def demoRecord : AirQualityData :=
  { id := 0
    location := "Paris"
    timestamp := 5
    air_quality_index := 42
    health_recommendations := "stay indoors"
    pollutant_levels := [("PM2.5", 35)]
    weather_conditions := ⟨18, 60, 5⟩ }

/-- Concrete one-record state: the demo record stored under key 0, counter
already advanced past it. -/
def demoState : CanisterState := ⟨1, [(0, demoRecord)]⟩

/-- Record produced by the first create of demoPayload on a fresh store at
time 0. -/
def demoCreated : AirQualityData :=
  { id := 0
    location := "Paris"
    timestamp := 0
    air_quality_index := 42
    health_recommendations := "stay indoors"
    pollutant_levels := [("PM2.5", 35)]
    weather_conditions := ⟨18, 60, 5⟩ }

/-- Concrete payload with both optional fields absent. -/
def plainPayload : AirQualityUpdatePayload :=
  { location := "Oslo"
    air_quality_index := 7
    health_recommendations := "ventilate"
    pollutant_levels := none
    weather_conditions := none }

/-- Concrete payload with an empty location. -/
def badPayload : AirQualityUpdatePayload :=
  { location := ""
    air_quality_index := 3
    health_recommendations := "mask up"
    pollutant_levels := none
    weather_conditions := none }

/-!
Lemmas about the association-list store.
-/

theorem assocLookup_insertSorted_self {α : Type} (k : Nat) (v : α) :
    ∀ l : List (Nat × α), assocLookup (insertSorted k v l) k = some v := by
  intro l
  induction l with
  | nil => simp [insertSorted, assocLookup]
  | cons p t ih =>
    obtain ⟨k₁, v₁⟩ := p
    by_cases h₁ : k < k₁
    · simp [insertSorted, h₁, assocLookup]
    · by_cases h₂ : k = k₁
      · simp [insertSorted, h₁, h₂, assocLookup]
      · have hne : ¬ k = k₁ := h₂
        simp [insertSorted, h₁, h₂, assocLookup, hne, ih]

theorem assocLookup_insertSorted_ne {α : Type} (k k₀ : Nat) (v : α)
    (hne : k₀ ≠ k) :
    ∀ l : List (Nat × α),
      assocLookup (insertSorted k v l) k₀ = assocLookup l k₀ := by
  intro l
  induction l with
  | nil => simp [insertSorted, assocLookup, hne]
  | cons p t ih =>
    obtain ⟨k₁, v₁⟩ := p
    by_cases h₁ : k < k₁
    · simp [insertSorted, h₁, assocLookup, hne]
    · by_cases h₂ : k = k₁
      · subst h₂
        simp [insertSorted, h₁, assocLookup, hne]
      · simp [insertSorted, h₁, h₂, assocLookup, ih]

theorem mem_insertSorted {α : Type} {k : Nat} {v : α} :
    ∀ {l : List (Nat × α)} {p : Nat × α},
      p ∈ insertSorted k v l → p = (k, v) ∨ p ∈ l := by
  intro l
  induction l with
  | nil => intro p hp; simpa [insertSorted] using hp
  | cons q t ih =>
    obtain ⟨k₁, v₁⟩ := q
    intro p hp
    by_cases h₁ : k < k₁
    · simp only [insertSorted, if_pos h₁, List.mem_cons] at hp ⊢
      tauto
    · by_cases h₂ : k = k₁
      · simp only [insertSorted, if_neg h₁, if_pos h₂, List.mem_cons] at hp ⊢
        tauto
      · simp only [insertSorted, if_neg h₁, if_neg h₂, List.mem_cons] at hp ⊢
        rcases hp with h | h
        · tauto
        · rcases ih h with h' | h' <;> tauto

theorem assocLookup_mem {κ α : Type} [DecidableEq κ] :
    ∀ {l : List (κ × α)} {k : κ} {v : α},
      assocLookup l k = some v → (k, v) ∈ l := by
  intro l
  induction l with
  | nil => intro k v h; simp [assocLookup] at h
  | cons p t ih =>
    obtain ⟨k₁, v₁⟩ := p
    intro k v h
    by_cases hk : k = k₁
    · subst hk
      simp [assocLookup] at h
      simp [h]
    · simp [assocLookup, hk] at h
      exact List.mem_cons_of_mem _ (ih h)

theorem removeKey_of_lookup_none {α : Type} {k : Nat} :
    ∀ {l : List (Nat × α)}, assocLookup l k = none → removeKey k l = (none, l) := by
  intro l
  induction l with
  | nil => intro _; simp [removeKey]
  | cons p t ih =>
    obtain ⟨k₁, v₁⟩ := p
    intro h
    by_cases hk : k = k₁
    · subst hk; simp [assocLookup] at h
    · simp [assocLookup, hk] at h
      simp [removeKey, hk, ih h]

theorem mem_removeKey {α : Type} {k : Nat} :
    ∀ {l : List (Nat × α)} {p : Nat × α}, p ∈ (removeKey k l).2 → p ∈ l := by
  intro l
  induction l with
  | nil => intro p hp; simp [removeKey] at hp
  | cons q t ih =>
    obtain ⟨k₁, v₁⟩ := q
    intro p hp
    by_cases hk : k = k₁
    · simp only [removeKey, if_pos hk] at hp
      exact List.mem_cons_of_mem _ hp
    · simp only [removeKey, if_neg hk, List.mem_cons] at hp
      rcases hp with h | h
      · simp [h]
      · exact List.mem_cons_of_mem _ (ih h)

theorem removeKey_fst_some {α : Type} {k : Nat} :
    ∀ {l : List (Nat × α)} {v : α}, (removeKey k l).1 = some v → (k, v) ∈ l := by
  intro l
  induction l with
  | nil => intro v h; simp [removeKey] at h
  | cons q t ih =>
    obtain ⟨k₁, v₁⟩ := q
    intro v h
    by_cases hk : k = k₁
    · subst hk
      simp [removeKey] at h
      simp [h]
    · simp only [removeKey, if_neg hk] at h
      exact List.mem_cons_of_mem _ (ih h)

/-!
Shape lemmas for the operations.
-/

theorem add_invalid_eq {s : CanisterState} {t : Nat} {p : AirQualityUpdatePayload}
    (hv : p.location = "" ∨ p.health_recommendations = "") :
    add_air_quality_data s t p =
      (s, .error (.InvalidInput
        "Location and health recommendations must be provided and non-empty")) := by
  simp [add_air_quality_data, hv]

theorem add_ok_shape {s : CanisterState} {t : Nat} {p : AirQualityUpdatePayload}
    {r : AirQualityData} (h : (add_air_quality_data s t p).2 = .ok r) :
    r.id = s.counter ∧ (add_air_quality_data s t p).1.counter = s.counter + 1 := by
  by_cases hv : p.location = "" ∨ p.health_recommendations = ""
  · simp [add_invalid_eq hv] at h
  · simp only [add_air_quality_data, if_neg hv, Except.ok.injEq] at h
    refine ⟨by rw [← h], ?_⟩
    simp [add_air_quality_data, hv]

theorem add_error_state {s : CanisterState} {t : Nat} {p : AirQualityUpdatePayload}
    {e : Error} (h : (add_air_quality_data s t p).2 = .error e) :
    (add_air_quality_data s t p).1 = s := by
  by_cases hv : p.location = "" ∨ p.health_recommendations = ""
  · simp [add_invalid_eq hv]
  · simp [add_air_quality_data, hv] at h

theorem add_counter_le (s : CanisterState) (t : Nat) (p : AirQualityUpdatePayload) :
    s.counter ≤ (add_air_quality_data s t p).1.counter := by
  by_cases hv : p.location = "" ∨ p.health_recommendations = ""
  · simp [add_invalid_eq hv]
  · simp only [add_air_quality_data, if_neg hv]
    omega

theorem update_counter (s : CanisterState) (id : Nat) (t : Nat)
    (p : AirQualityUpdatePayload) :
    (update_air_quality_data s id t p).1.counter = s.counter := by
  unfold update_air_quality_data
  split
  · rfl
  · split <;> rfl

theorem delete_counter (s : CanisterState) (id : Nat) :
    (delete_air_quality_data s id).1.counter = s.counter := by
  unfold delete_air_quality_data
  split <;> rfl

theorem delete_storage (s : CanisterState) (id : Nat) :
    (delete_air_quality_data s id).1.storage = (removeKey id s.storage).2 := by
  unfold delete_air_quality_data
  rcases hr : removeKey id s.storage with ⟨o, st⟩
  cases o <;> simp

theorem stepOp_counter_le (s : CanisterState) (op : Op) :
    s.counter ≤ (stepOp s op).counter := by
  cases op with
  | addOp t p => exact add_counter_le s t p
  | updateOp id t p => simp [stepOp, update_counter]
  | deleteOp id => simp [stepOp, delete_counter]
  | getOp id => exact Nat.le_refl _

theorem runState_append (s : CanisterState) (l₁ l₂ : List Op) :
    runState s (l₁ ++ l₂) = runState (runState s l₁) l₂ := by
  induction l₁ generalizing s with
  | nil => simp [runState]
  | cons op rest ih => simp [runState, ih]

theorem createdIds_lb : ∀ (ops : List Op) (s : CanisterState) ⦃i : Nat⦄,
    i ∈ createdIds s ops → s.counter ≤ i := by
  intro ops
  induction ops with
  | nil => intro s i h; simp [createdIds] at h
  | cons op rest ih =>
    intro s i h
    cases op with
    | addOp t p =>
      cases hr : (add_air_quality_data s t p).2 with
      | error e =>
        simp only [createdIds, hr] at h
        have := ih (add_air_quality_data s t p).1 h
        have hc := add_counter_le s t p
        omega
      | ok r =>
        simp only [createdIds, hr, List.mem_cons] at h
        obtain ⟨hid, hc⟩ := add_ok_shape hr
        rcases h with h | h
        · omega
        · have := ih (add_air_quality_data s t p).1 h
          omega
    | updateOp id t p =>
      simp only [createdIds] at h
      have := ih _ h
      have hc := stepOp_counter_le s (Op.updateOp id t p)
      omega
    | deleteOp id =>
      simp only [createdIds] at h
      have := ih _ h
      have hc := stepOp_counter_le s (Op.deleteOp id)
      omega
    | getOp id =>
      simp only [createdIds] at h
      exact ih _ h

theorem createdIds_pairwise : ∀ (ops : List Op) (s : CanisterState),
    (createdIds s ops).Pairwise (· < ·) := by
  intro ops
  induction ops with
  | nil => intro s; simp [createdIds]
  | cons op rest ih =>
    intro s
    cases op with
    | addOp t p =>
      cases hr : (add_air_quality_data s t p).2 with
      | error e => simp only [createdIds, hr]; exact ih _
      | ok r =>
        simp only [createdIds, hr]
        refine List.Pairwise.cons ?_ (ih _)
        intro b hb
        have hb' := createdIds_lb rest _ hb
        obtain ⟨hid, hc⟩ := add_ok_shape hr
        omega
    | updateOp id t p => simp only [createdIds]; exact ih _
    | deleteOp id => simp only [createdIds]; exact ih _
    | getOp id => simp only [createdIds]; exact ih _

theorem keysBelow_init : KeysBelow initState := by
  intro p hp; simp [initState] at hp

theorem keysBelow_step {s : CanisterState} (h : KeysBelow s) (op : Op) :
    KeysBelow (stepOp s op) := by
  cases op with
  | addOp t p =>
    by_cases hv : p.location = "" ∨ p.health_recommendations = ""
    · simpa [stepOp, add_invalid_eq hv] using h
    · intro q hq
      simp only [stepOp, add_air_quality_data, if_neg hv,
        do_insert_air_quality] at hq ⊢
      rcases mem_insertSorted hq with h₁ | h₁
      · subst h₁; exact ⟨rfl, Nat.lt_succ_self _⟩
      · obtain ⟨he, hlt⟩ := h q h₁
        exact ⟨he, Nat.lt_succ_of_lt hlt⟩
  | updateOp id t p =>
    by_cases hv : p.location = "" ∨ p.health_recommendations = ""
    · simpa [stepOp, update_air_quality_data, hv] using h
    · cases hl : assocLookup s.storage id with
      | none => simpa [stepOp, update_air_quality_data, hv, hl] using h
      | some data =>
        intro q hq
        simp only [stepOp, update_air_quality_data, if_neg hv, hl,
          do_insert_air_quality] at hq ⊢
        obtain ⟨hdid, hdlt⟩ := h (id, data) (assocLookup_mem hl)
        rcases mem_insertSorted hq with h₁ | h₁
        · subst h₁
          exact ⟨rfl, by simpa using hdid ▸ hdlt⟩
        · exact h q h₁
  | deleteOp id =>
    intro q hq
    rw [stepOp, delete_storage] at hq
    have := h q (mem_removeKey hq)
    simpa [stepOp, delete_counter] using this
  | getOp id => exact h

theorem keysBelow_run : ∀ (ops : List Op) (s : CanisterState),
    KeysBelow s → KeysBelow (runState s ops) := by
  intro ops
  induction ops with
  | nil => intro s h; exact h
  | cons op rest ih => intro s h; exact ih _ (keysBelow_step h op)

theorem delete_ok_mem {s : CanisterState} {id : Nat}
    (h : isOkE (delete_air_quality_data s id).2 = true) :
    ∃ v, (id, v) ∈ s.storage := by
  unfold delete_air_quality_data at h
  rcases hr : removeKey id s.storage with ⟨o, st⟩
  rw [hr] at h
  cases o with
  | none => simp [isOkE] at h
  | some v => exact ⟨v, removeKey_fst_some (by rw [hr])⟩

/-!
Codec roundtrip lemmas.
-/

theorem decodeInt_encodeInt (i : Int) : decodeInt (encodeInt i) = i := by
  unfold encodeInt decodeInt
  by_cases h : 0 ≤ i
  · rw [if_pos h, if_pos (by omega)]
    omega
  · rw [if_neg h, if_neg (by omega)]
    omega

theorem readChars_append (cs : List Char) (rest : List Nat) :
    readChars cs.length (cs.map Char.toNat ++ rest) = some (cs, rest) := by
  induction cs with
  | nil => simp [readChars]
  | cons c t ih => simp [readChars, ih, Char.ofNat_toNat]

theorem readString_append (s : String) (rest : List Nat) :
    readString (encodeString s ++ rest) = some (s, rest) := by
  unfold readString encodeString
  simp only [List.cons_append, readNat]
  have hl : s.length = s.data.length := rfl
  rw [hl, readChars_append]

theorem readRat_append (q : Rat) (rest : List Nat) :
    readRat (encodeRat q ++ rest) = some (q, rest) := by
  simp [encodeRat, readRat, decodeInt_encodeInt, Rat.mkRat_self]

theorem readPollEntries_append (l : List (String × Rat)) (rest : List Nat) :
    readPollEntries l.length (encodePollEntries l ++ rest) = some (l, rest) := by
  induction l generalizing rest with
  | nil => simp [encodePollEntries, readPollEntries]
  | cons p t ih =>
    obtain ⟨k, v⟩ := p
    simp only [encodePollEntries, List.length_cons, readPollEntries,
      List.append_assoc]
    simp [readString_append, readRat_append, ih]

theorem readPoll_append (l : List (String × Rat)) (rest : List Nat) :
    readPoll (encodePoll l ++ rest) = some (l, rest) := by
  simp only [encodePoll, readPoll, List.cons_append, readNat]
  exact readPollEntries_append l rest

theorem readWeather_append (w : WeatherData) (rest : List Nat) :
    readWeather (encodeWeather w ++ rest) = some (w, rest) := by
  obtain ⟨a, b, c⟩ := w
  simp only [encodeWeather, List.append_assoc]
  unfold readWeather
  simp [readRat_append]

theorem readWeather_whole (w : WeatherData) :
    readWeather (encodeWeather w) = some (w, []) := by
  have h := readWeather_append w []
  simpa using h

theorem from_bytes_to_bytes (r : AirQualityData) :
    from_bytes (to_bytes r) = some r := by
  obtain ⟨id, loc, ts, aqi, hr, pl, w⟩ := r
  simp only [to_bytes, List.append_assoc, List.cons_append]
  unfold from_bytes
  simp [readNat, readString_append, readPoll_append, readWeather_whole]

/-!
Query shape lemmas.
-/

theorem filterMapSnd_sublist {l : List (Nat × AirQualityData)}
    (g : (Nat × AirQualityData) → Option AirQualityData)
    (hg : ∀ p r, g p = some r → r = p.2) :
    (l.filterMap g).Sublist (l.map (·.2)) := by
  induction l with
  | nil => simp
  | cons p t ih =>
    rw [List.filterMap_cons, List.map_cons]
    cases hgp : g p with
    | none => exact ih.cons _
    | some r => rw [hg p r hgp]; exact ih.cons₂ _

theorem scan_ids_pairwise {s : CanisterState} (h : StoreWF s) :
    ((scanRecords s).map AirQualityData.id).Pairwise (· < ·) := by
  obtain ⟨hs, hid⟩ := h
  rw [scanRecords, List.map_map, List.pairwise_map]
  refine List.Pairwise.imp_of_mem ?_ hs
  intro a b ha hb hlt
  simp only [Function.comp_apply]
  rw [hid a ha, hid b hb]
  exact hlt

theorem listContainsSub_nil (l : List Char) : listContainsSub [] l = true := by
  cases l <;> rfl

theorem strContains_empty (hay : String) : strContains hay "" = true :=
  listContainsSub_nil hay.data

theorem add_ok_storage {s : CanisterState} {t : Nat}
    {p : AirQualityUpdatePayload} {r : AirQualityData}
    (h : (add_air_quality_data s t p).2 = .ok r) :
    (add_air_quality_data s t p).1.storage = insertSorted r.id r s.storage := by
  by_cases hv : p.location = "" ∨ p.health_recommendations = ""
  · simp [add_invalid_eq hv] at h
  · simp only [add_air_quality_data, if_neg hv, Except.ok.injEq] at h ⊢
    subst h
    rfl

theorem update_ok_full {s : CanisterState} {id t : Nat}
    {p : AirQualityUpdatePayload} {r : AirQualityData}
    (h : (update_air_quality_data s id t p).2 = .ok r) :
    ∃ data, assocLookup s.storage id = some data ∧
      r = { data with
            location := p.location
            air_quality_index := p.air_quality_index
            health_recommendations := p.health_recommendations
            pollutant_levels := p.pollutant_levels.getD []
            weather_conditions := p.weather_conditions.getD WeatherData.default0
            timestamp := t } ∧
      (update_air_quality_data s id t p).1.storage =
        insertSorted r.id r s.storage := by
  by_cases hv : p.location = "" ∨ p.health_recommendations = ""
  · simp [update_air_quality_data, hv] at h
  · cases hl : assocLookup s.storage id with
    | none => simp [update_air_quality_data, hv, hl] at h
    | some data =>
      simp only [update_air_quality_data, if_neg hv, hl, Except.ok.injEq] at h ⊢
      subst h
      exact ⟨data, rfl, rfl, rfl⟩

/-!
Claim theorems.
-/

/-- C1, counterexample: on a fresh store (counter 0) the first successful
create returns a record with identifier 0, not 1 — the counter cell's set
returns the previous value, so line 117-122 yields the pre-increment
counter. -/
theorem C1_counterexample :
    Except.map AirQualityData.id
        (add_air_quality_data initState 0 demoPayload).2 = Except.ok 0 ∧
      (0 : Nat) ≠ 1 :=
  ⟨rfl, by decide⟩

/-- C1, amended: for every create with non-empty location and guidance, the
identifier assigned to the returned record is the PRE-increment value of the
persisted counter (the counter then holds that value plus one); in
particular the first create on a fresh store returns a record with
identifier 0. -/
theorem C1_thm (s : CanisterState) (t : Nat) (p : AirQualityUpdatePayload)
    (h₁ : p.location ≠ "") (h₂ : p.health_recommendations ≠ "") :
    ∃ r, (add_air_quality_data s t p).2 = .ok r ∧ r.id = s.counter ∧
      (add_air_quality_data s t p).1.counter = s.counter + 1 ∧
      (s = initState → r.id = 0) := by
  have hv : ¬(p.location = "" ∨ p.health_recommendations = "") := by tauto
  refine ⟨{ id := s.counter
            location := p.location
            timestamp := t
            air_quality_index := p.air_quality_index
            health_recommendations := p.health_recommendations
            pollutant_levels := p.pollutant_levels.getD []
            weather_conditions := p.weather_conditions.getD WeatherData.default0 },
    ?_, rfl, ?_, ?_⟩
  · simp only [add_air_quality_data, if_neg hv]
  · simp only [add_air_quality_data, if_neg hv]
  · intro hs
    subst hs
    rfl

/-- C1, witness: the amended theorem applied to the fresh store and the
demo payload. -/
theorem C1_witness :
    demoPayload.location ≠ "" ∧ demoPayload.health_recommendations ≠ "" ∧
      ∃ r, (add_air_quality_data initState 0 demoPayload).2 = .ok r ∧
        r.id = initState.counter ∧
        (add_air_quality_data initState 0 demoPayload).1.counter =
          initState.counter + 1 ∧
        (initState = initState → r.id = 0) :=
  ⟨by decide, by decide,
    C1_thm initState 0 demoPayload (by decide) (by decide)⟩

/-- C3: create with an empty location or empty guidance returns InvalidInput
and returns the state unchanged — counter kept, no record written. -/
theorem C3_thm (s : CanisterState) (t : Nat) (p : AirQualityUpdatePayload)
    (hv : p.location = "" ∨ p.health_recommendations = "") :
    add_air_quality_data s t p =
      (s, .error (.InvalidInput
        "Location and health recommendations must be provided and non-empty")) := by
  simp [add_air_quality_data, hv]

/-- C3, witness: the empty-location payload on the fresh store. -/
theorem C3_witness :
    (badPayload.location = "" ∨ badPayload.health_recommendations = "") ∧
      add_air_quality_data initState 3 badPayload =
        (initState, .error (.InvalidInput
          "Location and health recommendations must be provided and non-empty")) :=
  ⟨Or.inl rfl, C3_thm initState 3 badPayload (Or.inl rfl)⟩

/-- C4: update (with valid payload), delete and get on an identifier with no
record each return NotFound and leave the state unchanged. -/
theorem C4_thm (s : CanisterState) (id t : Nat) (p : AirQualityUpdatePayload)
    (h₁ : p.location ≠ "") (h₂ : p.health_recommendations ≠ "")
    (habs : assocLookup s.storage id = none) :
    update_air_quality_data s id t p =
        (s, .error (.NotFound ("couldn't update air quality data with id="
          ++ toString id ++ ". data not found"))) ∧
      delete_air_quality_data s id =
        (s, .error (.NotFound ("couldn't delete air quality data with id="
          ++ toString id ++ ". data not found."))) ∧
      get_air_quality_data s id =
        .error (.NotFound ("air quality data with id=" ++ toString id
          ++ " not found")) := by
  have hv : ¬(p.location = "" ∨ p.health_recommendations = "") := by tauto
  refine ⟨?_, ?_, ?_⟩
  · simp [update_air_quality_data, hv, habs]
  · have hrm := removeKey_of_lookup_none (k := id) habs
    simp [delete_air_quality_data, hrm]
  · simp [get_air_quality_data, _get_air_quality_data, habs]

/-- C4, witness: identifier 7 on the fresh (empty) store. -/
theorem C4_witness :
    plainPayload.location ≠ "" ∧ plainPayload.health_recommendations ≠ "" ∧
      assocLookup initState.storage 7 = none ∧
      (update_air_quality_data initState 7 0 plainPayload =
          (initState, .error (.NotFound ("couldn't update air quality data with id="
            ++ toString 7 ++ ". data not found"))) ∧
        delete_air_quality_data initState 7 =
          (initState, .error (.NotFound ("couldn't delete air quality data with id="
            ++ toString 7 ++ ". data not found."))) ∧
        get_air_quality_data initState 7 =
          .error (.NotFound ("air quality data with id=" ++ toString 7
            ++ " not found"))) :=
  ⟨by decide, by decide, rfl,
    C4_thm initState 7 0 plainPayload (by decide) (by decide) rfl⟩

/-- C9: searching locations with the empty needle keeps every record — the
result equals the list-all query on the same state. -/
theorem C9_thm (s : CanisterState) :
    search_air_quality_data_by_location s "" = get_all_air_quality_data s := by
  unfold search_air_quality_data_by_location get_all_air_quality_data
  congr 1
  induction s.storage with
  | nil => rfl
  | cons p tl ih =>
    rw [List.filterMap_cons, List.map_cons, strContains_empty, ih]
    rfl

/-- C5: after a successful update at an existing identifier, get returns a
record carrying exactly the payload's fields (absent optionals defaulted to
empty and all-zero), the original identifier, and the refreshed timestamp,
at least the prior one under the host's monotone clock. -/
theorem C5_thm (s : CanisterState) (id t : Nat) (p : AirQualityUpdatePayload)
    (data : AirQualityData)
    (hl : assocLookup s.storage id = some data) (hid : data.id = id)
    (h₁ : p.location ≠ "") (h₂ : p.health_recommendations ≠ "")
    (ht : data.timestamp ≤ t) :
    ∃ r, (update_air_quality_data s id t p).2 = .ok r ∧
      get_air_quality_data (update_air_quality_data s id t p).1 id = .ok r ∧
      r.location = p.location ∧
      r.air_quality_index = p.air_quality_index ∧
      r.health_recommendations = p.health_recommendations ∧
      r.pollutant_levels = p.pollutant_levels.getD [] ∧
      r.weather_conditions = p.weather_conditions.getD WeatherData.default0 ∧
      r.id = id ∧ r.timestamp = t ∧ data.timestamp ≤ r.timestamp := by
  have hv : ¬(p.location = "" ∨ p.health_recommendations = "") := by tauto
  refine ⟨{ data with
            location := p.location
            air_quality_index := p.air_quality_index
            health_recommendations := p.health_recommendations
            pollutant_levels := p.pollutant_levels.getD []
            weather_conditions := p.weather_conditions.getD WeatherData.default0
            timestamp := t },
    ?_, ?_, rfl, rfl, rfl, rfl, rfl, hid, rfl, ht⟩
  · simp only [update_air_quality_data, if_neg hv, hl]
  · simp only [update_air_quality_data, if_neg hv, hl, get_air_quality_data,
      _get_air_quality_data, do_insert_air_quality]
    rw [hid, assocLookup_insertSorted_self]

/-- C5, witness: updating the one-record demo state at identifier 0 with the
plain payload at a later time. -/
theorem C5_witness :
    assocLookup demoState.storage 0 = some demoRecord ∧
      demoRecord.id = 0 ∧ demoRecord.timestamp ≤ 9 ∧
      ∃ r, (update_air_quality_data demoState 0 9 plainPayload).2 = .ok r ∧
        get_air_quality_data (update_air_quality_data demoState 0 9 plainPayload).1 0 =
          .ok r ∧
        r.location = plainPayload.location ∧
        r.air_quality_index = plainPayload.air_quality_index ∧
        r.health_recommendations = plainPayload.health_recommendations ∧
        r.pollutant_levels = plainPayload.pollutant_levels.getD [] ∧
        r.weather_conditions = plainPayload.weather_conditions.getD WeatherData.default0 ∧
        r.id = 0 ∧ r.timestamp = 9 ∧ demoRecord.timestamp ≤ r.timestamp :=
  ⟨rfl, rfl, by decide,
    C5_thm demoState 0 9 plainPayload demoRecord rfl rfl
      (by decide) (by decide) (by decide)⟩

/-- C7: the pollutant query returns exactly the scanned records whose
pollutant mapping carries the named pollutant with a concentration inside
the inclusive closed range; records lacking the pollutant never appear. -/
theorem C7_thm (s : CanisterState) (pollutant : String)
    (min_level max_level : Rat) (_hb : min_level ≤ max_level)
    (r : AirQualityData) (l : List AirQualityData)
    (hq : get_air_quality_data_by_pollutant_level s pollutant min_level max_level
      = .ok l) :
    r ∈ l ↔ r ∈ scanRecords s ∧
      ∃ c, assocLookup r.pollutant_levels pollutant = some c ∧
        min_level ≤ c ∧ c ≤ max_level := by
  simp only [get_air_quality_data_by_pollutant_level, Except.ok.injEq] at hq
  subst hq
  rw [List.mem_filterMap]
  constructor
  · rintro ⟨p, hp, hfp⟩
    cases hpl : assocLookup p.2.pollutant_levels pollutant with
    | none => simp [hpl] at hfp
    | some level =>
      simp only [hpl] at hfp
      split at hfp
      · rename_i hrange
        injection hfp with hfp
        subst hfp
        exact ⟨List.mem_map_of_mem _ hp, level, hpl, hrange.1, hrange.2⟩
      · cases hfp
  · rintro ⟨hmem, c, hc, h₁, h₂⟩
    rw [scanRecords, List.mem_map] at hmem
    obtain ⟨p, hp, hpr⟩ := hmem
    refine ⟨p, hp, ?_⟩
    rw [hpr, hc]
    simp [h₁, h₂]

/-- C7, witness: the demo record matches the PM2.5 query with bounds 30-40
on the demo state. -/
theorem C7_witness :
    (30 : Rat) ≤ 40 ∧
      (demoRecord ∈ [demoRecord] ↔ demoRecord ∈ scanRecords demoState ∧
        ∃ c, assocLookup demoRecord.pollutant_levels "PM2.5" = some c ∧
          (30 : Rat) ≤ c ∧ c ≤ 40) :=
  ⟨by norm_num,
    C7_thm demoState "PM2.5" 30 40 (by norm_num) demoRecord [demoRecord] rfl⟩

/-- Well-formedness of the concrete demo state. -/
theorem demoState_wf : StoreWF demoState := by
  constructor
  · simp [demoState]
  · intro p hp
    simp only [demoState, List.mem_singleton] at hp
    subst hp
    rfl

/-- C6: every query result is a subsequence of the full ordered scan, so its
records appear in ascending identifier order, never re-sorted. -/
theorem C6_thm (s : CanisterState) (hwf : StoreWF s)
    (location : String) (mnt mxt mnh mxh mnw mxw : Rat)
    (pollutant : String) (mn mx : Rat) (tsa tsb : Nat)
    (l : List AirQualityData)
    (hq : get_all_air_quality_data s = .ok l ∨
      search_air_quality_data_by_location s location = .ok l ∨
      get_air_quality_data_by_weather_conditions s mnt mxt mnh mxh mnw mxw = .ok l ∨
      get_air_quality_data_by_pollutant_level s pollutant mn mx = .ok l ∨
      get_air_quality_data_by_timestamp_range s tsa tsb = .ok l) :
    l.Sublist (scanRecords s) ∧
      (l.map AirQualityData.id).Pairwise (· < ·) := by
  have hscan := scan_ids_pairwise hwf
  have main : l.Sublist (scanRecords s) →
      l.Sublist (scanRecords s) ∧ (l.map AirQualityData.id).Pairwise (· < ·) :=
    fun hsub => ⟨hsub, List.Pairwise.sublist (hsub.map _) hscan⟩
  rcases hq with h | h | h | h | h
  · apply main
    simp only [get_all_air_quality_data, Except.ok.injEq] at h
    rw [← h, scanRecords]
  · apply main
    simp only [search_air_quality_data_by_location, Except.ok.injEq] at h
    rw [← h, scanRecords]
    refine filterMapSnd_sublist _ ?_
    intro p r hpr
    split at hpr
    · injection hpr with hpr
      exact hpr.symm
    · cases hpr
  · apply main
    simp only [get_air_quality_data_by_weather_conditions, Except.ok.injEq] at h
    rw [← h, scanRecords]
    refine filterMapSnd_sublist _ ?_
    intro p r hpr
    split at hpr
    · injection hpr with hpr
      exact hpr.symm
    · cases hpr
  · apply main
    simp only [get_air_quality_data_by_pollutant_level, Except.ok.injEq] at h
    rw [← h, scanRecords]
    refine filterMapSnd_sublist _ ?_
    intro p r hpr
    cases hpl : assocLookup p.2.pollutant_levels pollutant with
    | none => simp [hpl] at hpr
    | some level =>
      simp only [hpl] at hpr
      split at hpr
      · injection hpr with hpr
        exact hpr.symm
      · cases hpr
  · apply main
    simp only [get_air_quality_data_by_timestamp_range, Except.ok.injEq] at h
    rw [← h, scanRecords]
    refine filterMapSnd_sublist _ ?_
    intro p r hpr
    split at hpr
    · injection hpr with hpr
      exact hpr.symm
    · cases hpr

/-- C6, witness: the list-all query on the well-formed demo state. -/
theorem C6_witness :
    StoreWF demoState ∧
      [demoRecord].Sublist (scanRecords demoState) ∧
      ([demoRecord].map AirQualityData.id).Pairwise (· < ·) :=
  ⟨demoState_wf,
    C6_thm demoState demoState_wf "" 0 0 0 0 0 0 "" 0 0 0 0 [demoRecord]
      (Or.inl rfl)⟩

/-- C2: successful creates return pairwise strictly increasing identifiers
along any trace with interleaved updates, deletes and reads; and an
identifier removed by a successful delete is never assigned by any later
create. -/
theorem C2_thm :
    (∀ (s : CanisterState) (ops : List Op),
        (createdIds s ops).Pairwise (· < ·)) ∧
    (∀ (ops₁ ops₂ : List Op) (d : Nat),
        isOkE (delete_air_quality_data (runState initState ops₁) d).2 = true →
        d ∉ createdIds (runState initState (ops₁ ++ [Op.deleteOp d])) ops₂) := by
  constructor
  · intro s ops
    exact createdIds_pairwise ops s
  · intro ops₁ ops₂ d hok hmem
    obtain ⟨v, hv⟩ := delete_ok_mem hok
    have hkb : KeysBelow (runState initState ops₁) :=
      keysBelow_run ops₁ initState keysBelow_init
    have hd : d < (runState initState ops₁).counter := (hkb (d, v) hv).2
    rw [runState_append] at hmem
    have hge := createdIds_lb ops₂ _ hmem
    have hcnt : (runState (runState initState ops₁) [Op.deleteOp d]).counter =
        (runState initState ops₁).counter := by
      simp [runState, stepOp, delete_counter]
    omega

/-- C2, witness: create id 0, delete it, create again — the later create
returns id 1 and never reuses 0. -/
theorem C2_witness :
    isOkE (delete_air_quality_data
        (runState initState [Op.addOp 0 demoPayload]) 0).2 = true ∧
      0 ∉ createdIds
        (runState initState ([Op.addOp 0 demoPayload] ++ [Op.deleteOp 0]))
        [Op.addOp 1 plainPayload] :=
  ⟨rfl, C2_thm.2 [Op.addOp 0 demoPayload] [Op.addOp 1 plainPayload] 0 rfl⟩

/-- C8: decoding the encoding of a record within the 1024-byte bound yields
a record equal to the original in every field. -/
theorem C8_thm (r : AirQualityData) (_hsize : (to_bytes r).length ≤ 1024) :
    ∃ r', from_bytes (to_bytes r) = some r' ∧
      r'.id = r.id ∧ r'.location = r.location ∧ r'.timestamp = r.timestamp ∧
      r'.air_quality_index = r.air_quality_index ∧
      r'.health_recommendations = r.health_recommendations ∧
      r'.pollutant_levels = r.pollutant_levels ∧
      r'.weather_conditions = r.weather_conditions :=
  ⟨r, from_bytes_to_bytes r, rfl, rfl, rfl, rfl, rfl, rfl, rfl⟩

/-- C8, witness: the demo record encodes within the bound and roundtrips. -/
theorem C8_witness :
    (to_bytes demoRecord).length ≤ 1024 ∧
      ∃ r', from_bytes (to_bytes demoRecord) = some r' ∧
        r'.id = demoRecord.id ∧ r'.location = demoRecord.location ∧
        r'.timestamp = demoRecord.timestamp ∧
        r'.air_quality_index = demoRecord.air_quality_index ∧
        r'.health_recommendations = demoRecord.health_recommendations ∧
        r'.pollutant_levels = demoRecord.pollutant_levels ∧
        r'.weather_conditions = demoRecord.weather_conditions :=
  ⟨by decide, C8_thm demoRecord (by decide)⟩

/-- C10: a successful create or update writes exactly one map entry — the
one keyed by the returned record's identifier — and every other key's
binding is unchanged. -/
theorem C10_thm :
    (∀ (s : CanisterState) (t : Nat) (p : AirQualityUpdatePayload)
        (r : AirQualityData),
      (add_air_quality_data s t p).2 = .ok r →
        assocLookup (add_air_quality_data s t p).1.storage r.id = some r ∧
        ∀ k, k ≠ r.id →
          assocLookup (add_air_quality_data s t p).1.storage k =
            assocLookup s.storage k) ∧
    (∀ (s : CanisterState) (id t : Nat) (p : AirQualityUpdatePayload)
        (r : AirQualityData),
      (update_air_quality_data s id t p).2 = .ok r →
        assocLookup (update_air_quality_data s id t p).1.storage r.id = some r ∧
        ∀ k, k ≠ r.id →
          assocLookup (update_air_quality_data s id t p).1.storage k =
            assocLookup s.storage k) := by
  constructor
  · intro s t p r h
    rw [add_ok_storage h]
    exact ⟨assocLookup_insertSorted_self r.id r s.storage,
      fun k hk => assocLookup_insertSorted_ne r.id k r hk s.storage⟩
  · intro s id t p r h
    obtain ⟨data, _, _, hst⟩ := update_ok_full h
    rw [hst]
    exact ⟨assocLookup_insertSorted_self r.id r s.storage,
      fun k hk => assocLookup_insertSorted_ne r.id k r hk s.storage⟩

/-- C10, witness: the first create on the fresh store writes exactly the
entry at key 0. -/
theorem C10_witness :
    (add_air_quality_data initState 0 demoPayload).2 = .ok demoCreated ∧
      assocLookup (add_air_quality_data initState 0 demoPayload).1.storage
          demoCreated.id = some demoCreated ∧
      ∀ k, k ≠ demoCreated.id →
        assocLookup (add_air_quality_data initState 0 demoPayload).1.storage k =
          assocLookup initState.storage k :=
  ⟨rfl, C10_thm.1 initState 0 demoPayload demoCreated rfl⟩

end AirQuality
